import Mathlib

/-
  Verification development for the BeeWatch firmware
  (src/firmware/source/main.cpp, src/firmware/source/bee_preprocess.h).

  Shallow embedding conventions:
  * float / double arithmetic is modelled exactly over the rationals;
    every decimal coefficient of the source is carried as the exact
    rational its decimal literal denotes.
  * The sqrtf applied to the RMS radicand (main.cpp line 427) is not
    representable exactly over the rationals, so RMS claims are stated
    about the radicand (mean of squares).  Since sqrt is injective on
    nonnegative arguments, equality / inequality of radicands is
    equivalent to equality / inequality of the densities themselves.
  * The DFT bin-magnitude computation (main.cpp lines 360-370, 415-423)
    reads the conditioned samples into g_fft_input and mutates only the
    g_bin_accum array; it never touches the filter state or the RMS
    accumulators, and the twiddle tables involve irrational cosines, so
    the averaged bin magnitudes enter the feature-vector builders below
    as an opaque parameter (bins : Nat -> Rat), exactly as the builders
    read the ambient g_bin_accum array.
-/

namespace BeeWatch

/-- SAMPLE_RATE_HZ from main.cpp line 38. -/
def SAMPLE_RATE_HZ : ℕ := 16000

/-- CAPTURE_SECONDS from main.cpp line 39. -/
def CAPTURE_SECONDS : ℕ := 6

/-- AUDIO_BUFFER_SIZE from main.cpp line 40: 96000 samples. -/
def AUDIO_BUFFER_SIZE : ℕ := SAMPLE_RATE_HZ * CAPTURE_SECONDS

/-- FFT_SIZE from main.cpp line 41. -/
def FFT_SIZE : ℕ := 512

/-- FFT_HOP from main.cpp line 42 (non-overlapping windows). -/
def FFT_HOP : ℕ := 512

/-- HISTORY_SIZE from main.cpp line 43. -/
def HISTORY_SIZE : ℕ := 12

/-- NUM_FREQ_BINS from main.cpp line 44. -/
def NUM_FREQ_BINS : ℕ := 20

/-- High-pass coefficients, main.cpp lines 104-108. -/
def HP_B0 : ℚ := 9726139 / 10000000
def HP_B1 : ℚ := -(19452278 / 10000000)
def HP_B2 : ℚ := 9726139 / 10000000
def HP_A1 : ℚ := -(19444777 / 10000000)
def HP_A2 : ℚ := 9459779 / 10000000

/-- Low-pass stage 1 coefficients, main.cpp lines 112-116. -/
def LP1_B0 : ℚ := 4459029 / 10000000
def LP1_B1 : ℚ := 4459029 / 10000000
def LP1_B2 : ℚ := 0
def LP1_A1 : ℚ := 4142136 / 10000000
def LP1_A2 : ℚ := 0

/-- Low-pass stage 2 coefficients, main.cpp lines 119-123. -/
def LP2_B0 : ℚ := 3913 / 10000
def LP2_B1 : ℚ := 7827 / 10000
def LP2_B2 : ℚ := 3913 / 10000
def LP2_A1 : ℚ := -(3695 / 10000)
def LP2_A2 : ℚ := -(1958 / 10000)

/-- Filter state, main.cpp lines 126-128: two poles of the high-pass
    section, one pole of low-pass stage 1, two poles of low-pass
    stage 2. -/
structure FilterState where
  hp_w1 : ℚ
  hp_w2 : ℚ
  lp1_w1 : ℚ
  lp2_w1 : ℚ
  lp2_w2 : ℚ
deriving DecidableEq, Repr

/-- reset_filters, main.cpp lines 140-144: all poles zero. -/
def FilterState.zeroed : FilterState := ⟨0, 0, 0, 0, 0⟩

/-- biquad_hp, main.cpp lines 147-152 (Direct Form II Transposed). -/
def biquad_hp (s : FilterState) (x : ℚ) : FilterState × ℚ :=
  let y := HP_B0 * x + s.hp_w1
  ({ s with hp_w1 := HP_B1 * x - HP_A1 * y + s.hp_w2
          , hp_w2 := HP_B2 * x - HP_A2 * y }, y)

/-- biquad_lp1, main.cpp lines 154-158 (single-state 1st-order form). -/
def biquad_lp1 (s : FilterState) (x : ℚ) : FilterState × ℚ :=
  let y := LP1_B0 * x + s.lp1_w1
  ({ s with lp1_w1 := LP1_B1 * x - LP1_A1 * y }, y)

/-- biquad_lp2, main.cpp lines 160-165. -/
def biquad_lp2 (s : FilterState) (x : ℚ) : FilterState × ℚ :=
  let y := LP2_B0 * x + s.lp2_w1
  ({ s with lp2_w1 := LP2_B1 * x - LP2_A1 * y + s.lp2_w2
          , lp2_w2 := LP2_B2 * x - LP2_A2 * y }, y)

/-- The per-sample conditioning cascade in the order of
    main.cpp lines 407-409: high-pass, then low-pass stage 1, then
    low-pass stage 2. -/
def conditionSample (s : FilterState) (x : ℚ) : FilterState × ℚ :=
  let r1 := biquad_hp s x
  let r2 := biquad_lp1 r1.1 r1.2
  biquad_lp2 r2.1 r2.2

/-- Running the cascade over a sample list, returning the final filter
    state and the list of conditioned outputs. -/
def condRun (s : FilterState) : List ℚ → FilterState × List ℚ
  | [] => (s, [])
  | x :: xs =>
      let p := conditionSample s x
      let r := condRun p.1 xs
      (r.1, p.2 :: r.2)

/-- State-only view of the cascade over a sample list. -/
def condFold (s : FilterState) (l : List ℚ) : FilterState :=
  l.foldl (fun a x => (conditionSample a x).1) s

/-- Processing a list of windows with reset_filters invoked between
    windows: every window starts from the zeroed filter state
    (the variant the spec explicitly rules out for a single pass). -/
def condFoldResetBetween (s : FilterState) (chunks : List (List ℚ)) : FilterState :=
  chunks.foldl (fun _ c => condFold FilterState.zeroed c) s

/-- Per-sample normalization of main.cpp lines 403-404:
    subtract the DC offset, divide by 2048.0, multiply by the gain
    compensation scalar. -/
def preScale (dc gain raw : ℚ) : ℚ := (raw - dc) / 2048 * gain

/-- DC offset of main.cpp lines 381-385: arithmetic mean of all
    AUDIO_BUFFER_SIZE raw samples (double accumulation modelled
    exactly). -/
def dc_offset (buf : List ℚ) : ℚ := buf.sum / (AUDIO_BUFFER_SIZE : ℚ)

/-- Sum of squares of a sample list. -/
def sumSq (l : List ℚ) : ℚ := (l.map (fun x => x * x)).sum

/-- One iteration of the inner loop of main.cpp lines 400-413 restricted
    to the state it mutates that later claims depend on: the filter
    state, the rms_sum accumulator and the rms_count counter. -/
def rmsStep (dc gain : ℚ) (a : FilterState × ℚ × ℕ) (raw : ℚ) : FilterState × ℚ × ℕ :=
  let p := conditionSample a.1 (preScale dc gain raw)
  (p.1, a.2.1 + p.2 * p.2, a.2.2 + 1)

/-- The inner window loop of main.cpp lines 400-417 over one window. -/
def windowPass (dc gain : ℚ) (a : FilterState × ℚ × ℕ) (chunk : List ℚ) :
    FilterState × ℚ × ℕ :=
  chunk.foldl (rmsStep dc gain) a

/-- Window count of main.cpp line 388:
    (AUDIO_BUFFER_SIZE - FFT_SIZE) / FFT_HOP + 1 = 187. -/
def numWindows : ℕ := (AUDIO_BUFFER_SIZE - FFT_SIZE) / FFT_HOP + 1

/-- The w-th window of the buffer, main.cpp lines 398-403:
    samples offset .. offset + FFT_SIZE - 1 with offset = w * FFT_HOP. -/
def windowChunk (buf : List ℚ) (w : ℕ) : List ℚ :=
  (buf.drop (FFT_HOP * w)).take FFT_SIZE

/-- The full-buffer pass of process_and_compute_features
    (main.cpp lines 372-439) restricted to filter state, rms_sum and
    rms_count: filters are reset to zero once before the window loop
    (line 392) and the windows are processed in order with the filter
    state carried across windows. -/
def processPass (gain : ℚ) (buf : List ℚ) : FilterState × ℚ × ℕ :=
  ((List.range numWindows).map (windowChunk buf)).foldl
    (windowPass (dc_offset buf) gain) (FilterState.zeroed, 0, 0)

/-- The radicand of main.cpp line 427: rms_sum / rms_count.  The source
    returns sqrtf of this value as the RMS density. -/
def rmsMeanSq (gain : ℚ) (buf : List ℚ) : ℚ :=
  (processPass gain buf).2.1 / ((processPass gain buf).2.2 : ℚ)

/-- Follows the spec's words (section 4.3): the radicand of the RMS
    density as the mean of the squared conditioned samples across the
    ENTIRE buffer, i.e. over all AUDIO_BUFFER_SIZE samples, computed
    after filtering and before Hanning windowing. -/
def rmsSpecMeanSq (gain : ℚ) (buf : List ℚ) : ℚ :=
  sumSq (condRun FilterState.zeroed (buf.map (preScale (dc_offset buf) gain))).2
    / (AUDIO_BUFFER_SIZE : ℚ)

/-- The rolling-history insertion of main.cpp lines 447-450 (density
    history) and lines 553-556 (temperature history): if the history
    already holds HISTORY_SIZE entries the oldest (front) entry is
    erased first, then the new value is appended at the back. -/
def pushHistory (h : List ℚ) (v : ℚ) : List ℚ :=
  (if HISTORY_SIZE ≤ h.length then h.tail else h) ++ [v]

/-- The insertion of bee_preprocess.h lines 40-46 (add_reading):
    append first, then erase the front if the size exceeds
    HISTORY_SIZE. -/
def add_reading_push (h : List ℚ) (v : ℚ) : List ℚ :=
  let h2 := h ++ [v]
  if HISTORY_SIZE < h2.length then h2.tail else h2

/-- The rolling average of main.cpp lines 453-461: mean of the (already
    updated) density history, or the current density when the history is
    empty (unreachable after the push). -/
def rolling_avg_summer (hist2 : List ℚ) (current : ℚ) : ℚ :=
  if hist2 = [] then current else hist2.sum / (hist2.length : ℚ)

/-- Population variance of main.cpp lines 559-570: mean of squared
    deviations from the mean. -/
def popVariance (l : List ℚ) : ℚ :=
  ((l.map (fun t => (t - l.sum / (l.length : ℚ)) * (t - l.sum / (l.length : ℚ)))).sum)
    / (l.length : ℚ)

/-- Mock / live sensor state of main.cpp lines 75-87. -/
structure SensorState where
  mock : Bool
  mock_temp : ℚ
  mock_hum : ℚ
  mock_hour : ℚ
  last_temp : ℚ
  last_hum : ℚ
deriving DecidableEq, Repr

/-- Temperature selection of main.cpp line 468 / 549. -/
def sel_temp (st : SensorState) : ℚ := if st.mock then st.mock_temp else st.last_temp

/-- Humidity selection of main.cpp line 469 / 550. -/
def sel_hum (st : SensorState) : ℚ := if st.mock then st.mock_hum else st.last_hum

/-- Hour selection of main.cpp line 470: mock hour in mock mode, the
    hardcoded constant 14.0 otherwise. -/
def sel_hour (st : SensorState) : ℚ := if st.mock then st.mock_hour else 14

/-- run_summer_inference, main.cpp lines 443-491, up to the hand-off of
    the 20-element feature vector to the external classifier.  The
    averaged bin magnitudes are the ambient g_bin_accum array after
    process_and_compute_features, passed here as bins.  Returns the
    feature vector and the updated density history.  The float literal
    1e-6f is carried as the exact rational 1/1000000. -/
def run_summer_inference (st : SensorState) (hist : List ℚ) (bins : ℕ → ℚ)
    (density : ℚ) : List ℚ × List ℚ :=
  let hist2 := pushHistory hist density
  let rolling := rolling_avg_summer hist2 density
  let spike := density / (rolling + 1 / 1000000)
  ([sel_temp st, sel_hum st, sel_hour st, spike]
     ++ (List.range 16).map (fun i => bins (4 + i)), hist2)

/-- run_winter_inference, main.cpp lines 546-590, up to the hand-off of
    the 5-element feature vector to the external classifier.  Returns
    the feature vector and the updated temperature history. -/
def run_winter_inference (st : SensorState) (hist : List ℚ) (bins : ℕ → ℚ)
    (density : ℚ) : List ℚ × List ℚ :=
  let temp := sel_temp st
  let hist2 := pushHistory hist temp
  let stability := if 2 ≤ hist2.length then popVariance hist2 else 0
  let heater_power := bins 6 + bins 7 + bins 8
  let heater_ratio := heater_power / (density + 1 / 1000000)
  ([temp, sel_hum st, stability, heater_power, heater_ratio], hist2)

/-- Outcome of the external I2C transactions inside read_climate:
    whether the write phase (main.cpp line 229) and the read phase
    (main.cpp line 240) succeed, and the six data bytes delivered by a
    successful read. -/
structure ClimateEnv where
  write_ok : Bool
  read_ok : Bool
  data : Fin 6 → ℕ
deriving DecidableEq

/-- Observable outcome of read_climate: the stored g_last_temp and
    g_last_hum after the call, the returned flag, and whether the
    [WARN] line was printed. -/
structure ClimateResult where
  last_temp : ℚ
  last_hum : ℚ
  ok : Bool
  warned : Bool
deriving DecidableEq, Repr

/-- read_climate, main.cpp lines 218-254.  Mock mode stores the mock
    values and succeeds.  A write-phase failure stores the constants
    25.0 / 50.0, prints a [WARN] line and returns false.  A read-phase
    failure returns false WITHOUT touching the stored values and
    without a warning (main.cpp lines 241-243).  On success the raw
    words are (data[0] << 8) | data[1] and (data[3] << 8) | data[4]
    (bytes, so the shift-or equals 256 * high + low), converted and the
    humidity clamped to [0, 100]. -/
def read_climate (st : SensorState) (env : ClimateEnv) : ClimateResult :=
  if st.mock then ⟨st.mock_temp, st.mock_hum, true, false⟩
  else if env.write_ok = false then ⟨25, 50, false, true⟩
  else if env.read_ok = false then ⟨st.last_temp, st.last_hum, false, false⟩
  else
    let t_raw : ℕ := env.data 0 * 256 + env.data 1
    let h_raw : ℕ := env.data 3 * 256 + env.data 4
    let temp : ℚ := -45 + 175 * (t_raw : ℚ) / 65535
    let hum0 : ℚ := 100 * ((h_raw : ℚ) / 65535)
    ⟨temp, min 100 (max 0 hum0), true, false⟩

/-- The gain-set branch of the command dispatcher, main.cpp
    lines 762-769: the new value is accepted exactly when
    0 < v and v <= 2.0; otherwise a rejection message is printed and the
    stored gain is left unchanged.  Returns the stored gain after the
    command and whether the set was accepted. -/
def setGainCommand (cur v : ℚ) : ℚ × Bool :=
  if 0 < v ∧ v ≤ 2 then (v, true) else (cur, false)

/-- stream_audio, main.cpp lines 289-297: an out-of-range duration
    (seconds <= 0 or seconds > 6) is replaced by 6; the sample count is
    seconds * SAMPLE_RATE_HZ, clamped to AUDIO_BUFFER_SIZE. -/
def stream_audio_samples (seconds : ℤ) : ℤ :=
  let s := if seconds ≤ 0 ∨ 6 < seconds then 6 else seconds
  let samples := s * (SAMPLE_RATE_HZ : ℤ)
  if (AUDIO_BUFFER_SIZE : ℤ) < samples then (AUDIO_BUFFER_SIZE : ℤ) else samples

/-- Follows the spec's words (section 4.1): one transposed
    Direct-Form-II section with coefficients b0 b1 b2 a1 a2 and state
    (w1, w2), computing y = b0*x + w1, w1' = b1*x - a1*y + w2,
    w2' = b2*x - a2*y. -/
def tdf2Section (b0 b1 b2 a1 a2 : ℚ) (w : ℚ × ℚ) (x : ℚ) : (ℚ × ℚ) × ℚ :=
  let y := b0 * x + w.1
  ((b1 * x - a1 * y + w.2, b2 * x - a2 * y), y)

/-- Concrete 96000-sample buffer used to separate the implemented RMS
    radicand from the spec's entire-buffer radicand: a constant prefix
    covering the 187 windows, followed by 256 tail samples (outside
    every window) that average to the same constant, so the DC offset is
    exactly 100 and every window sample conditions to 0. -/
def c1buf : List ℚ :=
  List.replicate 95744 100 ++ (List.replicate 128 101 ++ List.replicate 128 99)

/-! Helper lemmas. -/

lemma len_mul_le_sum (l : List ℚ) (a : ℚ) (h : ∀ x ∈ l, a ≤ x) :
    (l.length : ℚ) * a ≤ l.sum := by
  induction l with
  | nil => simp
  | cons x xs ih =>
      have hx : a ≤ x := h x (List.mem_cons_self x xs)
      have hs := ih (fun y hy => h y (List.mem_cons_of_mem x hy))
      simp only [List.sum_cons, List.length_cons]
      push_cast
      linarith

lemma sum_le_len_mul (l : List ℚ) (b : ℚ) (h : ∀ x ∈ l, x ≤ b) :
    l.sum ≤ (l.length : ℚ) * b := by
  induction l with
  | nil => simp
  | cons x xs ih =>
      have hx : x ≤ b := h x (List.mem_cons_self x xs)
      have hs := ih (fun y hy => h y (List.mem_cons_of_mem x hy))
      simp only [List.sum_cons, List.length_cons]
      push_cast
      linarith

lemma pushHistory_foldl (xs : List ℚ) :
    xs.foldl pushHistory [] = xs.drop (xs.length - HISTORY_SIZE) := by
  induction xs using List.reverseRecOn with
  | nil => rfl
  | append_singleton xs x ih =>
      rw [List.foldl_append, List.foldl_cons, List.foldl_nil, ih]
      by_cases h : HISTORY_SIZE ≤ xs.length
      · have hlen : (xs.drop (xs.length - HISTORY_SIZE)).length = HISTORY_SIZE := by
          rw [List.length_drop]
          simp only [HISTORY_SIZE] at *
          omega
        rw [pushHistory, if_pos (le_of_eq hlen.symm), List.tail_drop]
        rw [List.length_append, List.length_singleton]
        rw [List.drop_append_eq_append_drop]
        have h1 : xs.length + 1 - HISTORY_SIZE - xs.length = 0 := by
          simp only [HISTORY_SIZE] at *
          omega
        have h2 : xs.length - HISTORY_SIZE + 1 = xs.length + 1 - HISTORY_SIZE := by
          simp only [HISTORY_SIZE] at *
          omega
        rw [h1, h2, List.drop_zero]
      · have h0 : xs.length - HISTORY_SIZE = 0 := by
          simp only [HISTORY_SIZE] at *
          omega
        have hlt : ¬ HISTORY_SIZE ≤ (xs.drop (xs.length - HISTORY_SIZE)).length := by
          rw [List.length_drop]
          simp only [HISTORY_SIZE] at *
          omega
        rw [pushHistory, if_neg hlt, h0, List.drop_zero]
        have h3 : (xs ++ [x]).length - HISTORY_SIZE = 0 := by
          rw [List.length_append, List.length_singleton]
          simp only [HISTORY_SIZE] at *
          omega
        rw [h3, List.drop_zero]

lemma add_reading_eq_push (h : List ℚ) (v : ℚ) (hle : h.length ≤ HISTORY_SIZE) :
    add_reading_push h v = pushHistory h v := by
  simp only [add_reading_push, pushHistory, HISTORY_SIZE] at *
  split_ifs with h1 h2
  · cases h with
    | nil => simp at h1
    | cons a t => simp
  · rw [List.length_append, List.length_singleton] at h1
    omega
  · rw [List.length_append, List.length_singleton] at h1
    omega
  · rfl

lemma sumSq_cons (x : ℚ) (l : List ℚ) : sumSq (x :: l) = x * x + sumSq l := by
  simp [sumSq]

lemma sumSq_append (l1 l2 : List ℚ) : sumSq (l1 ++ l2) = sumSq l1 + sumSq l2 := by
  simp [sumSq]

lemma sumSq_nonneg (l : List ℚ) : 0 ≤ sumSq l := by
  induction l with
  | nil => simp [sumSq]
  | cons x xs ih =>
      rw [sumSq_cons]
      exact add_nonneg (mul_self_nonneg x) ih

lemma sumSq_replicate_zero (n : ℕ) : sumSq (List.replicate n (0:ℚ)) = 0 := by
  simp [sumSq, List.map_replicate]

lemma mk_fst {α β : Type} (a : α) (b : β) : (Prod.mk a b).1 = a := rfl

lemma mk_snd {α β : Type} (a : α) (b : β) : (Prod.mk a b).2 = b := rfl

lemma condRun_cons (s : FilterState) (x : ℚ) (xs : List ℚ) :
    condRun s (x :: xs) =
      ((condRun (conditionSample s x).1 xs).1,
       (conditionSample s x).2 :: (condRun (conditionSample s x).1 xs).2) := rfl

lemma condRun_fst (l : List ℚ) : ∀ s, (condRun s l).1 = condFold s l := by
  induction l with
  | nil => intro s; rfl
  | cons x xs ih =>
      intro s
      simp only [condRun]
      rw [ih]
      rfl

lemma condRun_append (l1 l2 : List ℚ) : ∀ s, condRun s (l1 ++ l2) =
    ((condRun (condRun s l1).1 l2).1,
     (condRun s l1).2 ++ (condRun (condRun s l1).1 l2).2) := by
  induction l1 with
  | nil => intro s; simp [condRun]
  | cons x xs ih =>
      intro s
      simp [condRun, ih]

lemma conditionSample_zeroed :
    conditionSample FilterState.zeroed 0 = (FilterState.zeroed, 0) := by
  simp [conditionSample, biquad_hp, biquad_lp1, biquad_lp2, FilterState.zeroed]

lemma condRun_replicate_zero (n : ℕ) :
    condRun FilterState.zeroed (List.replicate n (0:ℚ)) =
      (FilterState.zeroed, List.replicate n (0:ℚ)) := by
  induction n with
  | zero => rfl
  | succ n ih =>
      rw [List.replicate_succ]
      simp only [condRun, conditionSample_zeroed]
      rw [ih]

lemma foldl_rmsStep (dc gain : ℚ) (l : List ℚ) : ∀ (s : FilterState) (r : ℚ) (c : ℕ),
    l.foldl (rmsStep dc gain) (s, r, c) =
      ((condRun s (l.map (preScale dc gain))).1,
       r + sumSq (condRun s (l.map (preScale dc gain))).2,
       c + l.length) := by
  induction l with
  | nil =>
      intro s r c
      simp [condRun, sumSq]
  | cons x xs ih =>
      intro s r c
      rw [List.foldl_cons]
      show xs.foldl (rmsStep dc gain) _ = _
      rw [rmsStep, ih]
      simp only [List.map_cons, condRun, sumSq_cons, List.length_cons, Prod.mk.injEq,
        true_and]
      constructor
      · ring
      · omega

lemma foldl_windowPass_flatten (dc gain : ℚ) (chunks : List (List ℚ)) :
    ∀ a, chunks.foldl (windowPass dc gain) a = chunks.flatten.foldl (rmsStep dc gain) a := by
  induction chunks with
  | nil => intro a; rfl
  | cons c cs ih =>
      intro a
      rw [List.foldl_cons, ih, List.flatten_cons, List.foldl_append]
      rfl

lemma flatten_windowChunks (l : List ℚ) : ∀ (n : ℕ), FFT_SIZE * n ≤ l.length →
    ((List.range n).map (windowChunk l)).flatten = l.take (FFT_SIZE * n) := by
  intro n
  induction n with
  | zero => intro _; simp
  | succ n ih =>
      intro h
      have h' : FFT_SIZE * n ≤ l.length :=
        le_trans (Nat.mul_le_mul_left _ (Nat.le_succ n)) h
      rw [List.range_succ, List.map_append, List.flatten_append, ih h']
      simp only [List.map_cons, List.map_nil, List.flatten_cons, List.flatten_nil,
        List.append_nil]
      rw [Nat.mul_succ, List.take_add]
      rfl

lemma condFold_chunks (chunks : List (List ℚ)) :
    ∀ s, chunks.foldl condFold s = condFold s chunks.flatten := by
  induction chunks with
  | nil => intro s; rfl
  | cons c cs ih =>
      intro s
      rw [List.foldl_cons, ih, List.flatten_cons]
      show _ = List.foldl _ s (c ++ cs.flatten)
      rw [List.foldl_append]
      rfl

lemma processPass_eq (gain : ℚ) (buf : List ℚ) (h : AUDIO_BUFFER_SIZE ≤ buf.length) :
    processPass gain buf =
      ((condRun FilterState.zeroed
          ((buf.take (numWindows * FFT_SIZE)).map (preScale (dc_offset buf) gain))).1,
       sumSq (condRun FilterState.zeroed
          ((buf.take (numWindows * FFT_SIZE)).map (preScale (dc_offset buf) gain))).2,
       numWindows * FFT_SIZE) := by
  have hsz : FFT_SIZE * numWindows ≤ AUDIO_BUFFER_SIZE := by decide
  have hle : FFT_SIZE * numWindows ≤ buf.length := le_trans hsz h
  have hcomm : FFT_SIZE * numWindows = numWindows * FFT_SIZE := Nat.mul_comm _ _
  have hlen : (buf.take (numWindows * FFT_SIZE)).length = numWindows * FFT_SIZE := by
    rw [List.length_take]
    rw [← hcomm] at *
    omega
  rw [processPass, foldl_windowPass_flatten, flatten_windowChunks buf numWindows hle,
    foldl_rmsStep, hcomm]
  simp [hlen]

/-! Claim theorems. -/

/-- C2: in every full-buffer pass, the Winter feature vector carries at
    position 3 the sum of the averaged bin magnitudes of exactly bins
    6, 7 and 8, and at position 4 that heater power divided by the
    current RMS density plus 1e-6. -/
theorem winter_heater_features (st : SensorState) (hist : List ℚ) (bins : ℕ → ℚ)
    (density : ℚ) :
    ((run_winter_inference st hist bins density).1).length = 5 ∧
    ((run_winter_inference st hist bins density).1).getD 3 0 = bins 6 + bins 7 + bins 8 ∧
    ((run_winter_inference st hist bins density).1).getD 4 0 =
      (bins 6 + bins 7 + bins 8) / (density + 1 / 1000000) :=
  ⟨rfl, rfl, rfl⟩

/-- C3: every run of the Summer feature builder produces the 20-element
    vector [temperature, humidity, hour, spike_ratio] followed, at
    positions 4 through 19 in bin order, by the averaged magnitudes of
    bins 4 through 19. -/
theorem summer_vector_layout (st : SensorState) (hist : List ℚ) (bins : ℕ → ℚ)
    (density : ℚ) :
    ((run_summer_inference st hist bins density).1).length = 20 ∧
    ((run_summer_inference st hist bins density).1).getD 0 0 = sel_temp st ∧
    ((run_summer_inference st hist bins density).1).getD 1 0 = sel_hum st ∧
    ((run_summer_inference st hist bins density).1).getD 2 0 = sel_hour st ∧
    ((run_summer_inference st hist bins density).1).getD 3 0 =
      density / (rolling_avg_summer (pushHistory hist density) density + 1 / 1000000) ∧
    ∀ i : Fin 16,
      ((run_summer_inference st hist bins density).1).getD (4 + i.val) 0 = bins (4 + i.val) := by
  refine ⟨rfl, rfl, rfl, rfl, rfl, ?_⟩
  intro i
  fin_cases i <;> rfl

/-- C5: a gain-set command with value v is accepted exactly when
    0 < v <= 2.0; an accepted set stores v, a rejected set leaves the
    stored gain unchanged; v = 2.0 is accepted and v = 3.0 rejected. -/
theorem set_gain_accept_range (cur v : ℚ) :
    ((setGainCommand cur v).2 = true ↔ (0 < v ∧ v ≤ 2)) ∧
    ((setGainCommand cur v).2 = true → (setGainCommand cur v).1 = v) ∧
    ((setGainCommand cur v).2 = false → (setGainCommand cur v).1 = cur) ∧
    (setGainCommand cur 2).2 = true ∧
    (setGainCommand cur 3).2 = false := by
  refine ⟨?_, ?_, ?_, by norm_num [setGainCommand], by norm_num [setGainCommand]⟩ <;>
    unfold setGainCommand <;> split_ifs with h <;> simp [h]

/-- C5 witness: the boundary cases evaluated at the default stored gain
    0.15. -/
theorem set_gain_accept_range_witness :
    (setGainCommand (3/20) 2).2 = true ∧ (setGainCommand (3/20) 3).2 = false :=
  ⟨(set_gain_accept_range (3/20) 2).2.2.2.1, (set_gain_accept_range (3/20) 3).2.2.2.2⟩

/-- C6: after inserting n values into an initially empty rolling history
    the history holds exactly the last min(n, 12) inserted values in
    insertion order (the oldest evicted first), its size never exceeds
    12, a further insertion leaves the just-inserted value as the newest
    (last) element, and the rolling average computed after the insertion
    is the mean of the history that contains that value.  The
    bee_preprocess.h add_reading insertion agrees with the main.cpp
    insertion on every reachable history. -/
theorem rolling_history_fifo (xs : List ℚ) (v : ℚ) :
    xs.foldl pushHistory [] = xs.drop (xs.length - HISTORY_SIZE) ∧
    (xs.foldl pushHistory []).length = min xs.length HISTORY_SIZE ∧
    (xs.foldl pushHistory []).length ≤ HISTORY_SIZE ∧
    v ∈ pushHistory (xs.foldl pushHistory []) v ∧
    (pushHistory (xs.foldl pushHistory []) v).getLast? = some v ∧
    rolling_avg_summer (pushHistory (xs.foldl pushHistory []) v) v =
      (pushHistory (xs.foldl pushHistory []) v).sum
        / ((pushHistory (xs.foldl pushHistory []) v).length : ℚ) ∧
    add_reading_push (xs.foldl pushHistory []) v =
      pushHistory (xs.foldl pushHistory []) v := by
  have hfold := pushHistory_foldl xs
  have hlen : (xs.foldl pushHistory []).length = min xs.length HISTORY_SIZE := by
    rw [hfold, List.length_drop]
    omega
  have hne : pushHistory (xs.foldl pushHistory []) v ≠ [] := by
    simp [pushHistory]
  refine ⟨hfold, hlen, ?_, ?_, ?_, ?_, ?_⟩
  · rw [hlen]
    omega
  · simp [pushHistory]
  · simp [pushHistory, List.getLast?_concat]
  · rw [rolling_avg_summer, if_neg hne]
  · exact add_reading_eq_push _ _ (by rw [hlen]; omega)

/-- C8: the conditioning cascade is, per sample, the transposed
    Direct-Form-II recurrence applied in the fixed order high-pass,
    1st-order low-pass, 2nd-order low-pass, with exactly the claimed
    constant coefficient values, the 1st-order section being the
    degenerate single-state form (its second state stays 0). -/
theorem conditioning_cascade_tdf2 (s : FilterState) (x : ℚ) :
    (conditionSample s x =
      (let h := tdf2Section (9726139/10000000) (-(19452278/10000000)) (9726139/10000000)
                  (-(19444777/10000000)) (9459779/10000000) (s.hp_w1, s.hp_w2) x
       let l1 := tdf2Section (4459029/10000000) (4459029/10000000) 0 (4142136/10000000) 0
                  (s.lp1_w1, 0) h.2
       let l2 := tdf2Section (3913/10000) (7827/10000) (3913/10000) (-(3695/10000))
                  (-(1958/10000)) (s.lp2_w1, s.lp2_w2) l1.2
       (⟨h.1.1, h.1.2, l1.1.1, l2.1.1, l2.1.2⟩, l2.2))) ∧
    ∀ w1 y : ℚ, (tdf2Section LP1_B0 LP1_B1 LP1_B2 LP1_A1 LP1_A2 (w1, 0) y).1.2 = 0 := by
  constructor
  · simp only [conditionSample, biquad_hp, biquad_lp1, biquad_lp2, tdf2Section,
      HP_B0, HP_B1, HP_B2, HP_A1, HP_A2, LP1_B0, LP1_B1, LP1_A1,
      LP2_B0, LP2_B1, LP2_B2, LP2_A1, LP2_A2, Prod.mk.injEq, FilterState.mk.injEq]
    refine ⟨⟨?_, ?_, ?_, ?_, ?_⟩, ?_⟩ <;> ring_nf
  · intro w1 y
    simp [tdf2Section, LP1_B2, LP1_A2]

/-- C9: the DC offset, the arithmetic mean of all 96000 raw samples,
    lies between any lower bound and any upper bound of the raw
    samples; in particular between min(raw) and max(raw). -/
theorem dc_offset_mean_bounds (buf : List ℚ) (a b : ℚ)
    (hlen : buf.length = AUDIO_BUFFER_SIZE)
    (hlo : ∀ x ∈ buf, a ≤ x) (hhi : ∀ x ∈ buf, x ≤ b) :
    a ≤ dc_offset buf ∧ dc_offset buf ≤ b := by
  have h1 := len_mul_le_sum buf a hlo
  have h2 := sum_le_len_mul buf b hhi
  rw [hlen] at h1 h2
  have hN : ((AUDIO_BUFFER_SIZE : ℕ) : ℚ) = 96000 := by
    norm_num [AUDIO_BUFFER_SIZE, SAMPLE_RATE_HZ, CAPTURE_SECONDS]
  rw [hN] at h1 h2
  unfold dc_offset
  rw [hN]
  constructor
  · rw [le_div_iff₀ (by norm_num : (0:ℚ) < 96000)]
    linarith
  · rw [div_le_iff₀ (by norm_num : (0:ℚ) < 96000)]
    linarith

/-- C9 witness: the constant buffer of 96000 samples of value 7 has DC
    offset between 7 and 7. -/
theorem dc_offset_mean_bounds_witness :
    ((List.replicate 96000 (7:ℚ)).length = AUDIO_BUFFER_SIZE ∧
     (∀ x ∈ List.replicate 96000 (7:ℚ), (7:ℚ) ≤ x) ∧
     (∀ x ∈ List.replicate 96000 (7:ℚ), x ≤ (7:ℚ))) ∧
    (7 ≤ dc_offset (List.replicate 96000 (7:ℚ)) ∧
     dc_offset (List.replicate 96000 (7:ℚ)) ≤ 7) := by
  have hlen : (List.replicate 96000 (7:ℚ)).length = AUDIO_BUFFER_SIZE := by
    rw [List.length_replicate]
    norm_num [AUDIO_BUFFER_SIZE, SAMPLE_RATE_HZ, CAPTURE_SECONDS]
  have hlo : ∀ x ∈ List.replicate 96000 (7:ℚ), (7:ℚ) ≤ x := by
    intro x hx
    rw [List.eq_of_mem_replicate hx]
  have hhi : ∀ x ∈ List.replicate 96000 (7:ℚ), x ≤ (7:ℚ) := by
    intro x hx
    rw [List.eq_of_mem_replicate hx]
  exact ⟨⟨hlen, hlo, hhi⟩, dc_offset_mean_bounds _ 7 7 hlen hlo hhi⟩

/-- C1 (amended): the radicand of the RMS density returned by the
    full-buffer pass is the mean of the squared conditioned samples
    (post-filtering, pre-windowing) over the numWindows * FFT_SIZE =
    95744 samples covered by the non-overlapping 512-sample windows,
    not over all 96000 samples of the buffer. -/
theorem rms_density_windowed_mean (gain : ℚ) (buf : List ℚ)
    (h : buf.length = AUDIO_BUFFER_SIZE) :
    rmsMeanSq gain buf =
      sumSq (condRun FilterState.zeroed
        ((buf.take (numWindows * FFT_SIZE)).map (preScale (dc_offset buf) gain))).2
        / ((numWindows * FFT_SIZE : ℕ) : ℚ) ∧
    (processPass gain buf).2.2 = numWindows * FFT_SIZE ∧
    numWindows * FFT_SIZE = 95744 := by
  have h' : AUDIO_BUFFER_SIZE ≤ buf.length := le_of_eq h.symm
  have hp := processPass_eq gain buf h'
  refine ⟨?_, ?_, by decide⟩
  · rw [rmsMeanSq, hp]
  · rw [hp]

/-- C1 witness: the amended statement applied to the all-zero buffer. -/
theorem rms_density_windowed_mean_witness :
    (List.replicate 96000 (0:ℚ)).length = AUDIO_BUFFER_SIZE ∧
    (rmsMeanSq 1 (List.replicate 96000 (0:ℚ)) =
      sumSq (condRun FilterState.zeroed
        (((List.replicate 96000 (0:ℚ)).take (numWindows * FFT_SIZE)).map
          (preScale (dc_offset (List.replicate 96000 (0:ℚ))) 1))).2
        / ((numWindows * FFT_SIZE : ℕ) : ℚ) ∧
     (processPass 1 (List.replicate 96000 (0:ℚ))).2.2 = numWindows * FFT_SIZE ∧
     numWindows * FFT_SIZE = 95744) := by
  have hlen : (List.replicate 96000 (0:ℚ)).length = AUDIO_BUFFER_SIZE := by
    rw [List.length_replicate]
    norm_num [AUDIO_BUFFER_SIZE, SAMPLE_RATE_HZ, CAPTURE_SECONDS]
  exact ⟨hlen, rms_density_windowed_mean 1 _ hlen⟩

/-- C1 counterexample: a 96000-sample buffer on which the implemented
    RMS radicand (over the 95744 window-covered samples) differs from
    the spec's entire-buffer radicand (over all 96000 samples).  All
    window-covered samples condition to 0, so the implemented radicand
    is 0, while the 256 uncovered tail samples condition to nonzero
    values, so the entire-buffer radicand is positive.  Since sqrt is
    injective on nonnegative radicands, the densities differ too. -/
theorem rms_density_entire_buffer_counterexample :
    c1buf.length = AUDIO_BUFFER_SIZE ∧
    rmsMeanSq (3/20) c1buf ≠ rmsSpecMeanSq (3/20) c1buf := by
  have hlen : c1buf.length = AUDIO_BUFFER_SIZE := by
    simp only [c1buf, List.length_append, List.length_replicate]
    norm_num [AUDIO_BUFFER_SIZE, SAMPLE_RATE_HZ, CAPTURE_SECONDS]
  have hdc : dc_offset c1buf = 100 := by
    rw [dc_offset, c1buf]
    simp only [List.sum_append, List.sum_replicate, nsmul_eq_mul]
    norm_num [AUDIO_BUFFER_SIZE, SAMPLE_RATE_HZ, CAPTURE_SECONDS]
  have hps0 : preScale 100 (3/20) 100 = 0 := by norm_num [preScale]
  have hpsA : preScale 100 (3/20) 101 = 3/40960 := by norm_num [preScale]
  have hpsB : preScale 100 (3/20) 99 = -(3/40960) := by norm_num [preScale]
  have hcode : rmsMeanSq (3/20) c1buf = 0 := by
    have hp := processPass_eq (3/20) c1buf (le_of_eq hlen.symm)
    have htake : c1buf.take (numWindows * FFT_SIZE) = List.replicate 95744 (100:ℚ) := by
      have hnum : numWindows * FFT_SIZE = 95744 := by decide
      rw [hnum, c1buf]
      exact List.take_left' (by rw [List.length_replicate])
    rw [rmsMeanSq, hp, mk_snd, mk_fst, mk_snd, htake, hdc, List.map_replicate, hps0,
      condRun_replicate_zero, mk_snd, sumSq_replicate_zero, zero_div]
  have hy0 : (conditionSample FilterState.zeroed ((3:ℚ)/40960)).2 ≠ 0 := by
    norm_num [conditionSample, biquad_hp, biquad_lp1, biquad_lp2, FilterState.zeroed,
      HP_B0, HP_B1, HP_B2, HP_A1, HP_A2, LP1_B0, LP1_B1, LP1_A1,
      LP2_B0, LP2_B1, LP2_B2, LP2_A1, LP2_A2]
  have hspec : 0 < rmsSpecMeanSq (3/20) c1buf := by
    have htail : (List.replicate 128 ((3:ℚ)/40960)) =
        ((3:ℚ)/40960) :: List.replicate 127 ((3:ℚ)/40960) := by
      rw [show (128:ℕ) = 127 + 1 from rfl, List.replicate_succ]
    have hmap : c1buf.map (preScale (dc_offset c1buf) (3/20)) =
        List.replicate 95744 (0:ℚ) ++
          (((3:ℚ)/40960) :: (List.replicate 127 ((3:ℚ)/40960) ++
            List.replicate 128 (-((3:ℚ)/40960)))) := by
      rw [hdc, c1buf]
      rw [List.map_append, List.map_append, List.map_replicate, List.map_replicate,
        List.map_replicate, hps0, hpsA, hpsB, htail, List.cons_append]
    rw [rmsSpecMeanSq, hmap, condRun_append, mk_snd, condRun_replicate_zero,
      mk_snd, mk_fst, condRun_cons, mk_snd, sumSq_append, sumSq_replicate_zero,
      zero_add, sumSq_cons]
    apply div_pos
    · exact add_pos_of_pos_of_nonneg (mul_self_pos.mpr hy0) (sumSq_nonneg _)
    · norm_num [AUDIO_BUFFER_SIZE, SAMPLE_RATE_HZ, CAPTURE_SECONDS]
  refine ⟨hlen, ?_⟩
  rw [hcode]
  exact Ne.symm (ne_of_gt hspec)

/-- C7: the filter state of a full-buffer pass starts from the zeroed
    state (reset exactly once, before the first window) and is carried
    across windows: feeding the windows one-by-one equals filtering the
    same total samples as one long concatenated sequence, and the
    state of the pass equals that one-long-sequence state; invoking
    reset_filters between windows of the same pass yields a different
    state, shown at a concrete input. -/
theorem filter_state_continuity :
    (∀ (chunks : List (List ℚ)) (s : FilterState),
        chunks.foldl condFold s = condFold s chunks.flatten) ∧
    (∀ (gain : ℚ) (buf : List ℚ),
        (processPass gain buf).1 =
          condFold FilterState.zeroed
            ((((List.range numWindows).map (windowChunk buf)).flatten).map
              (preScale (dc_offset buf) gain))) ∧
    ([[1], [0]] : List (List ℚ)).foldl condFold FilterState.zeroed ≠
      condFoldResetBetween FilterState.zeroed [[1], [0]] := by
  refine ⟨fun chunks s => condFold_chunks chunks s, ?_, ?_⟩
  · intro gain buf
    rw [processPass, foldl_windowPass_flatten, foldl_rmsStep, mk_fst, condRun_fst]
  · intro hEq
    have h1 := congrArg FilterState.hp_w1 hEq
    norm_num [condFoldResetBetween, condFold, List.foldl_cons, List.foldl_nil,
      conditionSample, biquad_hp, biquad_lp1, biquad_lp2, FilterState.zeroed,
      HP_B0, HP_B1, HP_B2, HP_A1, HP_A2, LP1_B0, LP1_B1, LP1_A1,
      LP2_B0, LP2_B1, LP2_B2, LP2_A1, LP2_A2] at h1

/-- C4 (amended): with mock mode off, the climate read reports failure
    exactly when one of the two I2C phases fails; a write-phase failure
    stores the safe constants 25.0 and 50.0, logs a warning and returns
    the failure flag; a read-phase failure returns the failure flag but
    leaves the stored temperature and humidity unchanged and logs no
    warning.  In both cases the failure is non-fatal (the function
    returns a flag; callers continue). -/
theorem read_climate_failure_paths (st : SensorState) (env : ClimateEnv)
    (hm : st.mock = false) :
    ((read_climate st env).ok = false ↔
      (env.write_ok = false ∨ (env.write_ok = true ∧ env.read_ok = false))) ∧
    (env.write_ok = false →
      read_climate st env = ⟨25, 50, false, true⟩) ∧
    (env.write_ok = true → env.read_ok = false →
      (read_climate st env).last_temp = st.last_temp ∧
      (read_climate st env).last_hum = st.last_hum ∧
      (read_climate st env).ok = false ∧
      (read_climate st env).warned = false) := by
  rcases env with ⟨w, r, d⟩
  cases w <;> cases r <;> simp [read_climate, hm]

/-- C4 witness: the write-phase-failure case evaluated at a concrete
    sensor state. -/
theorem read_climate_failure_paths_witness :
    (⟨false, 25, 50, 14, 3, 4⟩ : SensorState).mock = false ∧
    (((read_climate ⟨false, 25, 50, 14, 3, 4⟩
        ⟨false, true, fun _ => 0⟩).ok = false ↔
      ((⟨false, true, fun _ => 0⟩ : ClimateEnv).write_ok = false ∨
       ((⟨false, true, fun _ => 0⟩ : ClimateEnv).write_ok = true ∧
        (⟨false, true, fun _ => 0⟩ : ClimateEnv).read_ok = false))) ∧
     ((⟨false, true, fun _ => 0⟩ : ClimateEnv).write_ok = false →
       read_climate ⟨false, 25, 50, 14, 3, 4⟩ ⟨false, true, fun _ => 0⟩ =
         ⟨25, 50, false, true⟩) ∧
     ((⟨false, true, fun _ => 0⟩ : ClimateEnv).write_ok = true →
      (⟨false, true, fun _ => 0⟩ : ClimateEnv).read_ok = false →
       (read_climate ⟨false, 25, 50, 14, 3, 4⟩
         ⟨false, true, fun _ => 0⟩).last_temp =
           (⟨false, 25, 50, 14, 3, 4⟩ : SensorState).last_temp ∧
       (read_climate ⟨false, 25, 50, 14, 3, 4⟩
         ⟨false, true, fun _ => 0⟩).last_hum =
           (⟨false, 25, 50, 14, 3, 4⟩ : SensorState).last_hum ∧
       (read_climate ⟨false, 25, 50, 14, 3, 4⟩
         ⟨false, true, fun _ => 0⟩).ok = false ∧
       (read_climate ⟨false, 25, 50, 14, 3, 4⟩
         ⟨false, true, fun _ => 0⟩).warned = false)) :=
  ⟨rfl, read_climate_failure_paths ⟨false, 25, 50, 14, 3, 4⟩ ⟨false, true, fun _ => 0⟩ rfl⟩

/-- C4 counterexample: when the climate read fails in the read phase
    (write phase succeeded), the operation reports failure but the
    stored temperature and humidity remain at their prior values 0
    instead of the safe constants 25.0 / 50.0, and no warning is
    logged. -/
theorem read_climate_safe_constants_counterexample :
    (read_climate ⟨false, 25, 50, 14, 0, 0⟩ ⟨true, false, fun _ => 0⟩).ok = false ∧
    ¬ ((read_climate ⟨false, 25, 50, 14, 0, 0⟩
          ⟨true, false, fun _ => 0⟩).last_temp = 25 ∧
       (read_climate ⟨false, 25, 50, 14, 0, 0⟩
          ⟨true, false, fun _ => 0⟩).last_hum = 50 ∧
       (read_climate ⟨false, 25, 50, 14, 0, 0⟩
          ⟨true, false, fun _ => 0⟩).warned = true) := by
  constructor
  · rfl
  · intro h
    norm_num [read_climate] at h

/-- C10: the audio-stream command captures 16000 * d samples when
    1 <= d <= 6 and the full 96000-sample buffer otherwise; the count
    never exceeds the buffer capacity. -/
theorem stream_audio_sample_count (d : ℤ) :
    stream_audio_samples d = (if 1 ≤ d ∧ d ≤ 6 then 16000 * d else 96000) ∧
    stream_audio_samples d ≤ 96000 := by
  simp only [stream_audio_samples, SAMPLE_RATE_HZ, AUDIO_BUFFER_SIZE, CAPTURE_SECONDS]
  push_cast
  split_ifs <;> constructor <;> omega

end BeeWatch
